import Mathlib

/-!
Verification development for the adaptive-tutor cognitive profile engine.

The repository stores its data model in `enhanced-postgres-schema.sql`
(the `cognitive_profiles` and `behavioral_metrics` tables), its inference
rule thresholds as pseudocode in `proposed-architecture/neo4j-schema.cypher`,
its profile-update endpoint `update_cognitive_profile` in the implementation
guide, its session-tracking hook `useSessionTracking` and the `Register`
component in the frontend sources.  The executable analytics service
(`services/behavioral_analytics.py`) is referenced but not present in the
repository, so the aggregate / infer / blend steps are modelled from the
specification where noted.
-/

/-- The eight cognitive dimensions, from the `cognitive_profiles` table of
the PostgreSQL schema. -/
inductive Dim where
  | instruction_flow
  | input_preference
  | engagement_style
  | concept_type
  | learning_autonomy
  | motivation_type
  | feedback_preference
  | complexity_tolerance
deriving DecidableEq, Repr

/-- All eight dimensions. -/
def Dim.all : List Dim :=
  [.instruction_flow, .input_preference, .engagement_style, .concept_type,
   .learning_autonomy, .motivation_type, .feedback_preference, .complexity_tolerance]

theorem Dim.mem_all (d : Dim) : d ∈ Dim.all := by
  cases d <;> simp [Dim.all]

/-- A windowed behavioral summary, after the `behavioral_metrics` table of
the PostgreSQL schema.  Every field is optional: `none` is the schema's
NULL, meaning "no signal", distinct from 0. -/
structure BehavioralWindow where
  video_to_text_ratio : Option ℚ
  avg_video_completion : Option ℚ
  avg_article_completion : Option ℚ
  interactive_engagement_rate : Option ℚ
  avg_focus_score : Option ℚ
  frustration_events : Option ℕ
  help_requests : Option ℕ
  learning_velocity : Option ℚ
  retention_score : Option ℚ
  concept_revisit_rate : Option ℚ
  completion_rate : Option ℚ
deriving Repr

/-- Three-valued threshold test: `none` input means the comparison cannot
be evaluated (no signal). -/
def gtQ (x : Option ℚ) (t : ℚ) : Option Bool :=
  x.map (fun v => decide (t < v))

/-- Three-valued strict less-than test on an optional field. -/
def ltQ (x : Option ℚ) (t : ℚ) : Option Bool :=
  x.map (fun v => decide (v < t))

/-- Three-valued threshold test on an optional count field. -/
def gtN (x : Option ℕ) (t : ℕ) : Option Bool :=
  x.map (fun v => decide (t < v))

/-- Strict conjunction of optional booleans: undefined when either input is
undefined, so a rule with a NULL input field cannot fire. -/
def andS (a b : Option Bool) : Option Bool :=
  a.bind (fun x => b.map (fun y => x && y))

/-- Strict disjunction of optional booleans: undefined when either input is
undefined, so a rule with a NULL input field cannot fire. -/
def orS (a b : Option Bool) : Option Bool :=
  a.bind (fun x => b.map (fun y => x || y))

/-- First-match evaluation of a two-rule threshold chain with a fallback.
The first rule whose condition evaluates to `true` wins; the fallback
fires only when every rule could be evaluated and none crossed its
threshold; when no rule can be evaluated the dimension yields no
candidate at all. -/
def evalChain (r1 r2 : Option Bool) (v1 v2 fb : String × ℚ) : Option (String × ℚ) :=
  match r1, r2 with
  | some true, _ => some v1
  | some false, some true => some v2
  | none, some true => some v2
  | some false, some false => some fb
  | _, _ => none

/-- Modelled from the spec: the executable rule engine
(`services/behavioral_analytics.py`) is absent from the repository; the
thresholds and confidences reproduce the Input Preference pseudocode in
`neo4j-schema.cypher`, and NULL fields propagate as "no signal" per the
specification. -/
def inferInputPreference (w : BehavioralWindow) : Option (String × ℚ) :=
  evalChain
    (andS (gtQ w.video_to_text_ratio 2) (gtQ w.avg_video_completion (7/2)))
    (andS (ltQ w.video_to_text_ratio (1/2)) (gtQ w.avg_article_completion (7/2)))
    ("visual", 9/10) ("verbal", 9/10) ("mixed", 3/5)

/-- Modelled from the spec: executable rule engine absent; thresholds from
the Complexity Tolerance pseudocode in `neo4j-schema.cypher`. -/
def inferComplexityTolerance (w : BehavioralWindow) : Option (String × ℚ) :=
  evalChain
    (andS (gtQ w.learning_velocity (7/10)) (gtQ w.completion_rate (4/5)))
    (orS (gtN w.frustration_events 5) (ltQ w.completion_rate (1/2)))
    ("high", 17/20) ("low", 3/4) ("medium", 7/10)

/-- Modelled from the spec: executable rule engine absent; thresholds from
the Engagement Style pseudocode in `neo4j-schema.cypher`. -/
def inferEngagementStyle (w : BehavioralWindow) : Option (String × ℚ) :=
  evalChain
    (gtQ w.interactive_engagement_rate (3/10))
    (ltQ w.interactive_engagement_rate (1/10))
    ("active", 4/5) ("passive", 3/4) ("mixed", 13/20)

/-- Modelled from the spec: executable rule engine absent; thresholds from
the Learning Autonomy pseudocode in `neo4j-schema.cypher`. -/
def inferLearningAutonomy (w : BehavioralWindow) : Option (String × ℚ) :=
  evalChain
    (andS (ltQ w.concept_revisit_rate (6/5)) (gtQ w.avg_focus_score (7/10)))
    (orS (gtQ w.concept_revisit_rate 2) (gtN w.frustration_events 3))
    ("independent", 4/5) ("guided", 3/4) ("mixed", 3/5)

/-- Candidate produced for one dimension.  Only four dimensions have rule
chains in `neo4j-schema.cypher`; the other four have no rules anywhere in
the source and therefore never produce a candidate. -/
def dimResult (w : BehavioralWindow) (d : Dim) : Option (String × ℚ) :=
  match d with
  | .input_preference => inferInputPreference w
  | .complexity_tolerance => inferComplexityTolerance w
  | .engagement_style => inferEngagementStyle w
  | .learning_autonomy => inferLearningAutonomy w
  | _ => none

/-- Modelled from the spec: the rule engine contract
`infer(window) -> list[InferenceResult]`; a dimension with no candidate is
omitted from the list. -/
def infer (w : BehavioralWindow) : List (Dim × String × ℚ) :=
  Dim.all.filterMap (fun d => (dimResult w d).map (fun r => (d, r)))

theorem mem_infer_iff (w : BehavioralWindow) (d : Dim) (r : String × ℚ) :
    (d, r) ∈ infer w ↔ dimResult w d = some r := by
  constructor
  · intro h
    rcases List.mem_filterMap.mp h with ⟨a, _, ha⟩
    rcases Option.map_eq_some'.mp ha with ⟨x, hx, hxr⟩
    rw [Prod.mk.injEq] at hxr
    obtain ⟨rfl, rfl⟩ := hxr
    exact hx
  · intro h
    exact List.mem_filterMap.mpr ⟨d, Dim.mem_all d, by rw [h]; rfl⟩

theorem mem_infer_fst_iff (w : BehavioralWindow) (d : Dim) :
    d ∈ (infer w).map Prod.fst ↔ ∃ r, dimResult w d = some r := by
  constructor
  · intro h
    rcases List.mem_map.mp h with ⟨x, hx, hfst⟩
    rcases x with ⟨d', r⟩
    cases hfst
    exact ⟨r, (mem_infer_iff w d' r).mp hx⟩
  · intro ⟨r, hr⟩
    exact List.mem_map.mpr ⟨(d, r), (mem_infer_iff w d r).mpr hr, rfl⟩

/-- The all-NULL window: zero interactions of any kind. -/
def allNullWindow : BehavioralWindow :=
  ⟨none, none, none, none, none, none, none, none, none, none, none⟩

/-- A learner's cognitive profile, after the `cognitive_profiles` table:
a categorical value and a confidence per dimension, a version counter and
an adaptation counter. -/
structure LearnerProfile where
  values : Dim → String
  confs : Dim → ℚ
  profile_version : ℕ
  total_adaptations : ℕ

/-- Per-dimension merge step.  Modelled from the spec: the blending
service (`services/behavioral_analytics.py`) is absent from the
repository; the confidence blend and the confidence-gated value update
follow the Profile Adaptation Merger contract. -/
def mergeDim (p : LearnerProfile) (rs : List (Dim × String × ℚ))
    (rate thr : ℚ) (d : Dim) : String × ℚ :=
  match rs.find? (fun r => decide (r.1 = d)) with
  | some (_, v, c) =>
      ((if thr ≤ c then v else p.values d), p.confs d * (1 - rate) + c * rate)
  | none => (p.values d, p.confs d)

/-- Whether the merge changed at least one dimension's value or
confidence. -/
def mergeChanged (p : LearnerProfile) (rs : List (Dim × String × ℚ))
    (rate thr : ℚ) : Bool :=
  Dim.all.any (fun d => decide (mergeDim p rs rate thr d ≠ (p.values d, p.confs d)))

/-- Modelled from the spec: the Profile Adaptation Merger contract
`merge(profile, results, adaptation_rate, confidence_threshold)`; the
merging service is absent from the repository.  Version and adaptation
counters are bumped only when some dimension actually changed. -/
def merge (p : LearnerProfile) (rs : List (Dim × String × ℚ))
    (rate thr : ℚ) : LearnerProfile :=
  if mergeChanged p rs rate thr then
    { values := fun d => (mergeDim p rs rate thr d).1
      confs := fun d => (mergeDim p rs rate thr d).2
      profile_version := p.profile_version + 1
      total_adaptations := p.total_adaptations + 1 }
  else p

/-- The dictionaries returned by `infer_cognitive_updates` as consumed by
the `update_cognitive_profile` endpoint: attribute updates for dimension
values and for confidence scores. -/
structure CognitiveUpdates where
  updates : List (Dim × String)
  confidence_scores : List (Dim × ℚ)

/-- Modelled from the spec: `infer_cognitive_updates` is absent from the
repository; it packages the inference results into the value / confidence
dictionaries the endpoint applies. -/
def toUpdates (rs : List (Dim × String × ℚ)) : CognitiveUpdates :=
  ⟨rs.map (fun r => (r.1, r.2.1)), rs.map (fun r => (r.1, r.2.2))⟩

/-- The `update_cognitive_profile` endpoint from the implementation guide:
`setattr` every entry of the two dictionaries onto the profile, then
increment `total_adaptations` and `profile_version` unconditionally. -/
def update_cognitive_profile (p : LearnerProfile) (u : CognitiveUpdates) :
    LearnerProfile :=
  { values := u.updates.foldl (fun acc kv => fun d => if d = kv.1 then kv.2 else acc d) p.values
    confs := u.confidence_scores.foldl (fun acc kv => fun d => if d = kv.1 then kv.2 else acc d) p.confs
    profile_version := p.profile_version + 1
    total_adaptations := p.total_adaptations + 1 }

/-- A concrete profile used to instantiate the merge theorems. -/
def exampleProfile : LearnerProfile :=
  ⟨fun _ => "mixed", fun _ => 1/2, 1, 0⟩

/-- A concrete non-empty update set used to instantiate the merge
theorems. -/
def exampleUpdates : CognitiveUpdates :=
  ⟨[(Dim.input_preference, "visual")], [(Dim.input_preference, 9/10)]⟩

/-- The enum domain `instruction_flow_type` from the PostgreSQL schema. -/
def instruction_flow_type : List String := ["linear", "exploratory", "mixed"]

/-- The enum domain `input_preference_type` from the PostgreSQL schema. -/
def input_preference_type : List String := ["visual", "verbal", "mixed"]

/-- The enum domain `engagement_style_type` from the PostgreSQL schema. -/
def engagement_style_type : List String := ["passive", "active", "mixed"]

/-- The enum domain `concept_type_preference` from the PostgreSQL schema. -/
def concept_type_preference : List String := ["concrete", "abstract", "mixed"]

/-- The enum domain `learning_autonomy_type` from the PostgreSQL schema. -/
def learning_autonomy_type : List String := ["guided", "independent", "mixed"]

/-- The enum domain `motivation_type` from the PostgreSQL schema. -/
def motivation_type : List String := ["intrinsic", "extrinsic", "mixed"]

/-- The enum domain `feedback_preference_type` from the PostgreSQL schema. -/
def feedback_preference_type : List String := ["immediate", "delayed", "mixed"]

/-- The enum domain `complexity_tolerance_type` from the PostgreSQL schema. -/
def complexity_tolerance_type : List String := ["low", "medium", "high"]

/-- The constant `initialProfile` from the `Register` component. -/
def initialProfile : Dim → String := fun d =>
  match d with
  | .instruction_flow => "sequential"
  | .input_preference => "verbal"
  | .engagement_style => "reflective"
  | .concept_type => "intuitive"
  | .learning_autonomy => "guided"
  | .motivation_type => "intrinsic"
  | .feedback_preference => "delayed"
  | .complexity_tolerance => "high"

/-- `handleProfileChange` from the `Register` component: overwrite one
profile key of the form state. -/
def handleProfileChange (s : Dim → String) (e : Dim × String) : Dim → String :=
  fun d => if d = e.1 then e.2 else s d

/-- The cognitive profile submitted by the `Register` form after a
sequence of profile-field edit events: the form state starts from
`initialProfile` and each edit overwrites one key. -/
def submittedProfile (events : List (Dim × String)) : Dim → String :=
  events.foldl handleProfileChange initialProfile

/-- The body sent by `endSession` in the `useSessionTracking` hook. -/
structure SessionEndPayload where
  completion_rate : ℚ
  focus_score : ℚ
  frustration_indicators : ℕ
deriving Repr

/-- `calculateCompletionRate` from the `useSessionTracking` hook. -/
def calculateCompletionRate (interactions : ℕ) : ℚ :=
  if 0 < interactions then 8/10 else 1/2

/-- `calculateFocusScore` from the `useSessionTracking` hook. -/
def calculateFocusScore (durationSeconds : ℚ) : ℚ :=
  if durationSeconds < 60 then 1/2
  else if durationSeconds < 300 then 7/10
  else 85/100

/-- The session-end report: `endSession` posts the computed completion
rate and focus score together with the literal `frustration_indicators: 0`. -/
def endSessionPayload (interactions : ℕ) (durationSeconds : ℚ) : SessionEndPayload :=
  ⟨calculateCompletionRate interactions, calculateFocusScore durationSeconds, 0⟩

/-- Modelled from the spec: the aggregator sums `frustration_events` as a
raw count over the session records of a window; the aggregator service is
absent from the repository. -/
def windowFrustration (sessions : List SessionEndPayload) : ℕ :=
  (sessions.map (fun s => s.frustration_indicators)).sum

/-- Modelled from the spec: the aggregator's
`video_to_text_ratio = count(video) / (count(video) + count(text))`,
NULL when the denominator is zero; the aggregator service is absent from
the repository, the formula is documented in the `behavioral_metrics`
table comment. -/
def video_to_text_ratio (videos texts : ℕ) : Option ℚ :=
  if videos + texts = 0 then none
  else some ((videos : ℚ) / ((videos : ℚ) + (texts : ℚ)))

/-- The match-score formula from `neo4j-schema.cypher`. -/
def match_score (style_match difficulty_match engagement_score : ℚ) : ℚ :=
  style_match * (6/10) + difficulty_match * (4/10) + engagement_score * (2/10)

theorem evalChain_first (r2 : Option Bool) (v1 v2 fb : String × ℚ) :
    evalChain (some true) r2 v1 v2 fb = some v1 := by
  cases r2 with
  | none => rfl
  | some b => cases b <;> rfl

theorem find_none_of_dimResult_none (w : BehavioralWindow) (d : Dim)
    (h : dimResult w d = none) :
    (infer w).find? (fun r => decide (r.1 = d)) = none := by
  rw [List.find?_eq_none]
  rintro ⟨d', r⟩ hx hdec
  have hd : d' = d := of_decide_eq_true hdec
  subst hd
  have hm := (mem_infer_iff w d' r).mp hx
  rw [h] at hm
  exact Option.noConfusion hm

theorem merge_untouched_of_find_none (p : LearnerProfile)
    (rs : List (Dim × String × ℚ)) (rate thr : ℚ) (d : Dim)
    (h : rs.find? (fun r => decide (r.1 = d)) = none) :
    (merge p rs rate thr).values d = p.values d ∧
    (merge p rs rate thr).confs d = p.confs d := by
  unfold merge
  split
  · exact ⟨by simp [mergeDim, h], by simp [mergeDim, h]⟩
  · exact ⟨rfl, rfl⟩

theorem merge_spec_of_find_some (p : LearnerProfile)
    (rs : List (Dim × String × ℚ)) (rate thr : ℚ) (d : Dim) (v : String) (c : ℚ)
    (h : rs.find? (fun r => decide (r.1 = d)) = some (d, v, c)) :
    (merge p rs rate thr).confs d = p.confs d * (1 - rate) + c * rate ∧
    (merge p rs rate thr).values d = if thr ≤ c then v else p.values d := by
  unfold merge
  split
  · exact ⟨by simp [mergeDim, h], by simp [mergeDim, h]⟩
  · rename_i hch
    have hall := List.any_eq_false.mp (Bool.not_eq_true _ ▸ hch)
    have hd := hall d (Dim.mem_all d)
    have heq : mergeDim p rs rate thr d = (p.values d, p.confs d) := by
      by_contra hne
      exact hd (decide_eq_true hne)
    rw [mergeDim, h] at heq
    rw [Prod.mk.injEq] at heq
    exact ⟨heq.2.symm, heq.1.symm⟩

/-- C1: the claim fails on the endpoint code: `update_cognitive_profile`
increments `profile_version` unconditionally, so merging the empty
inference-result list produced by the all-NULL window does not return the
same `profile_version`. -/
theorem empty_merge_version_not_preserved :
    infer allNullWindow = [] ∧
    (update_cognitive_profile exampleProfile (toUpdates (infer allNullWindow))).profile_version ≠
      exampleProfile.profile_version := by
  exact ⟨rfl, by decide⟩

/-- C1 (amended): merging an empty inference-result list leaves every
dimension's value and confidence unchanged, but the endpoint still
increments `profile_version` and `total_adaptations` by exactly 1; the
all-NULL window does yield an empty result list from `infer`. -/
theorem empty_merge_changes_only_bookkeeping (p : LearnerProfile) :
    (∀ d : Dim, (update_cognitive_profile p (toUpdates [])).values d = p.values d ∧
      (update_cognitive_profile p (toUpdates [])).confs d = p.confs d) ∧
    (update_cognitive_profile p (toUpdates [])).profile_version = p.profile_version + 1 ∧
    (update_cognitive_profile p (toUpdates [])).total_adaptations = p.total_adaptations + 1 ∧
    infer allNullWindow = [] :=
  ⟨fun _ => ⟨rfl, rfl⟩, rfl, rfl, rfl⟩

/-- C2: a merge that changes at least one dimension's value or confidence
increments `profile_version` by exactly 1 and `total_adaptations` by
exactly 1, and both counters strictly increase. -/
theorem merge_version_and_adaptations_increment (p : LearnerProfile)
    (u : CognitiveUpdates)
    (_hch : ∃ d : Dim, (update_cognitive_profile p u).values d ≠ p.values d ∨
      (update_cognitive_profile p u).confs d ≠ p.confs d) :
    (update_cognitive_profile p u).profile_version = p.profile_version + 1 ∧
    (update_cognitive_profile p u).total_adaptations = p.total_adaptations + 1 ∧
    p.profile_version < (update_cognitive_profile p u).profile_version ∧
    p.total_adaptations < (update_cognitive_profile p u).total_adaptations :=
  ⟨rfl, rfl, Nat.lt_succ_self _, Nat.lt_succ_self _⟩

theorem merge_version_and_adaptations_increment_witness :
    (update_cognitive_profile exampleProfile exampleUpdates).profile_version =
      exampleProfile.profile_version + 1 ∧
    (update_cognitive_profile exampleProfile exampleUpdates).total_adaptations =
      exampleProfile.total_adaptations + 1 ∧
    exampleProfile.profile_version <
      (update_cognitive_profile exampleProfile exampleUpdates).profile_version ∧
    exampleProfile.total_adaptations <
      (update_cognitive_profile exampleProfile exampleUpdates).total_adaptations :=
  merge_version_and_adaptations_increment exampleProfile exampleUpdates
    ⟨Dim.input_preference, Or.inl (by decide)⟩

/-- C3: for a dimension present in the results list, the merged confidence
is the blend `old * (1 - 0.15) + candidate * 0.15`, and the value is the
candidate exactly when the candidate confidence reaches the 0.70
threshold, otherwise the old value is retained. -/
theorem merge_blends_confidence_and_gates_value (p : LearnerProfile)
    (rs : List (Dim × String × ℚ)) (d : Dim) (v : String) (c : ℚ)
    (h : rs.find? (fun r => decide (r.1 = d)) = some (d, v, c)) :
    (merge p rs (3/20) (7/10)).confs d = p.confs d * (1 - 3/20) + c * (3/20) ∧
    (merge p rs (3/20) (7/10)).values d = if (7/10 : ℚ) ≤ c then v else p.values d :=
  merge_spec_of_find_some p rs (3/20) (7/10) d v c h

/-- A profile with high-confidence INDEPENDENT learning autonomy, as in
Scenario D. -/
def scenarioProfile : LearnerProfile :=
  ⟨fun _ => "independent", fun _ => 4/5, 3, 2⟩

/-- A below-threshold GUIDED candidate for learning autonomy, as in
Scenario D's second window. -/
def scenarioResults : List (Dim × String × ℚ) :=
  [(Dim.learning_autonomy, "guided", 3/5)]

theorem merge_blends_confidence_and_gates_value_witness :
    (merge scenarioProfile scenarioResults (3/20) (7/10)).confs Dim.learning_autonomy = 77/100 ∧
    (merge scenarioProfile scenarioResults (3/20) (7/10)).values Dim.learning_autonomy =
      "independent" := by
  have h := merge_blends_confidence_and_gates_value scenarioProfile scenarioResults
    Dim.learning_autonomy "guided" (3/5) rfl
  constructor
  · rw [h.1]
    norm_num [scenarioProfile]
  · rw [h.2, if_neg (by norm_num)]
    rfl

/-- C4: the aggregated video-to-text ratio is NULL exactly when there are
no video or text interactions, and otherwise equals
`videos / (videos + texts)`, which lies in the unit interval. -/
theorem video_to_text_ratio_null_or_unit_interval (videos texts : ℕ) :
    (video_to_text_ratio videos texts = none ↔ videos + texts = 0) ∧
    (∀ r : ℚ, video_to_text_ratio videos texts = some r →
      0 ≤ r ∧ r ≤ 1 ∧ r = (videos : ℚ) / ((videos : ℚ) + (texts : ℚ))) := by
  constructor
  · by_cases h : videos + texts = 0 <;> simp [video_to_text_ratio, h]
  · intro r hr
    unfold video_to_text_ratio at hr
    split at hr
    · exact Option.noConfusion hr
    · rename_i h
      injection hr with hr
      subst hr
      have hpos : (0 : ℚ) < (videos : ℚ) + (texts : ℚ) := by
        have h0 : 0 < videos + texts := Nat.pos_of_ne_zero h
        exact_mod_cast h0
      refine ⟨div_nonneg (by positivity) hpos.le, ?_, rfl⟩
      rw [div_le_one hpos]
      exact le_add_of_nonneg_right (by positivity)

theorem video_to_text_ratio_null_or_unit_interval_witness :
    0 ≤ (1/2 : ℚ) ∧ (1/2 : ℚ) ≤ 1 ∧
    (1/2 : ℚ) = ((1 : ℕ) : ℚ) / (((1 : ℕ) : ℚ) + ((1 : ℕ) : ℚ)) :=
  (video_to_text_ratio_null_or_unit_interval 1 1).2 (1/2)
    (by norm_num [video_to_text_ratio])

/-- Scenario A's window: high video-to-text ratio and high video
completion, all other fields NULL. -/
def visualWindow : BehavioralWindow :=
  ⟨some 3, some 4, none, none, none, none, none, none, none, none, none⟩

/-- C6: any window whose video-to-text ratio exceeds 2.0 and whose video
completion exceeds 3.5 yields the first-match candidate VISUAL with
confidence 0.90 for input preference. -/
theorem visual_rule_first_match (w : BehavioralWindow) (r v : ℚ)
    (h1 : w.video_to_text_ratio = some r) (h2 : 2 < r)
    (h3 : w.avg_video_completion = some v) (h4 : 7/2 < v) :
    inferInputPreference w = some ("visual", 9/10) ∧
    (Dim.input_preference, (("visual" : String), (9/10 : ℚ))) ∈ infer w := by
  have hip : inferInputPreference w = some ("visual", 9/10) := by
    unfold inferInputPreference
    rw [h1, h3]
    have e1 : gtQ (some r) 2 = some true := by simp [gtQ, h2]
    have e2 : gtQ (some v) (7/2) = some true := by simp [gtQ, h4]
    rw [e1, e2]
    exact evalChain_first _ _ _ _
  exact ⟨hip, (mem_infer_iff w _ _).mpr hip⟩

theorem visual_rule_first_match_witness :
    inferInputPreference visualWindow = some ("visual", 9/10) ∧
    (Dim.input_preference, (("visual" : String), (9/10 : ℚ))) ∈ infer visualWindow :=
  visual_rule_first_match visualWindow 3 4 rfl (by norm_num) rfl (by norm_num)

/-- C7: the match score is exactly the weighted sum with weights 0.6, 0.4,
0.2; the weights sum to 1.2, and over unit-interval inputs the score is
bounded by 1.2, attained at exact matches. -/
theorem match_score_formula_and_bound (s d e : ℚ)
    (_hs0 : 0 ≤ s) (hs1 : s ≤ 1) (_hd0 : 0 ≤ d) (hd1 : d ≤ 1)
    (_he0 : 0 ≤ e) (he1 : e ≤ 1) :
    match_score s d e = s * (6/10) + d * (4/10) + e * (2/10) ∧
    match_score s d e ≤ 6/5 ∧
    match_score 1 1 1 = 6/5 ∧
    (6/10 : ℚ) + 4/10 + 2/10 = 6/5 := by
  refine ⟨rfl, ?_, by norm_num [match_score], by norm_num⟩
  unfold match_score
  nlinarith [hs1, hd1, he1]

theorem match_score_formula_and_bound_witness :
    match_score 1 1 1 = 1 * (6/10) + 1 * (4/10) + 1 * (2/10) ∧
    match_score 1 1 1 ≤ 6/5 := by
  have h := match_score_formula_and_bound 1 1 1 (by norm_num) (by norm_num)
    (by norm_num) (by norm_num) (by norm_num) (by norm_num)
  exact ⟨h.1, h.2.1⟩

theorem evalChain_none_right (r1 : Option Bool) (v1 v2 fb x : String × ℚ)
    (h : evalChain r1 none v1 v2 fb = some x) : x = v1 := by
  rcases r1 with _ | b
  · exact Option.noConfusion h
  · cases b
    · exact Option.noConfusion h
    · injection h with h
      exact h.symm

/-- C5: the claim fails on the modelled rule engine: in Scenario A's
window the article-engagement field required by the VERBAL rule is NULL,
yet the input-preference dimension is not omitted — the VISUAL rule still
fires because its own fields are present. -/
theorem null_field_dimension_not_omitted :
    visualWindow.avg_article_completion = none ∧
    Dim.input_preference ∈ (infer visualWindow).map Prod.fst ∧
    (Dim.input_preference, (("visual" : String), (9/10 : ℚ))) ∈ infer visualWindow := by
  have hip : inferInputPreference visualWindow = some ("visual", 9/10) := by
    unfold inferInputPreference
    rw [show visualWindow.video_to_text_ratio = some 3 from rfl,
        show visualWindow.avg_video_completion = some 4 from rfl]
    have e1 : gtQ (some 3) 2 = some true := by norm_num [gtQ]
    have e2 : gtQ (some 4) (7/2) = some true := by norm_num [gtQ]
    rw [e1, e2]
    exact evalChain_first _ _ _ _
  exact ⟨rfl, (mem_infer_fst_iff _ _).mpr ⟨_, hip⟩, (mem_infer_iff _ _ _).mpr hip⟩

/-- C5 (amended): a rule whose required window field is NULL never fires,
so a dimension whose rule inputs are all NULL is omitted from the output
entirely and is never defaulted to the mixed fallback; a dimension can
still appear when another of its rules has all fields present. -/
theorem null_field_rule_does_not_fire (w : BehavioralWindow) :
    (w.video_to_text_ratio = none → Dim.input_preference ∉ (infer w).map Prod.fst) ∧
    (w.interactive_engagement_rate = none → Dim.engagement_style ∉ (infer w).map Prod.fst) ∧
    (w.completion_rate = none → Dim.complexity_tolerance ∉ (infer w).map Prod.fst) ∧
    (w.concept_revisit_rate = none → Dim.learning_autonomy ∉ (infer w).map Prod.fst) ∧
    (w.avg_article_completion = none →
      (Dim.input_preference, (("verbal" : String), (9/10 : ℚ))) ∉ infer w ∧
      (Dim.input_preference, (("mixed" : String), (3/5 : ℚ))) ∉ infer w) := by
  refine ⟨?_, ?_, ?_, ?_, ?_⟩
  · intro h hmem
    obtain ⟨r, hr⟩ := (mem_infer_fst_iff _ _).mp hmem
    have hr2 : inferInputPreference w = some r := hr
    unfold inferInputPreference at hr2
    rw [h] at hr2
    exact Option.noConfusion hr2
  · intro h hmem
    obtain ⟨r, hr⟩ := (mem_infer_fst_iff _ _).mp hmem
    have hr2 : inferEngagementStyle w = some r := hr
    unfold inferEngagementStyle at hr2
    rw [h] at hr2
    exact Option.noConfusion hr2
  · intro h hmem
    obtain ⟨r, hr⟩ := (mem_infer_fst_iff _ _).mp hmem
    have hr2 : inferComplexityTolerance w = some r := hr
    unfold inferComplexityTolerance at hr2
    rw [h] at hr2
    rcases hlv : w.learning_velocity with _ | q <;> rw [hlv] at hr2 <;>
      rcases hfe : w.frustration_events with _ | m <;> rw [hfe] at hr2 <;>
      exact Option.noConfusion hr2
  · intro h hmem
    obtain ⟨r, hr⟩ := (mem_infer_fst_iff _ _).mp hmem
    have hr2 : inferLearningAutonomy w = some r := hr
    unfold inferLearningAutonomy at hr2
    rw [h] at hr2
    exact Option.noConfusion hr2
  · intro h
    constructor
    · intro hmem
      have hr3 : inferInputPreference w = some ("verbal", 9/10) :=
        (mem_infer_iff _ _ _).mp hmem
      unfold inferInputPreference at hr3
      rw [h] at hr3
      rcases hvr : w.video_to_text_ratio with _ | q
      · rw [hvr] at hr3
        exact Option.noConfusion hr3
      · rw [hvr] at hr3
        have h4 := evalChain_none_right _ _ _ _ _ hr3
        simp at h4
    · intro hmem
      have hr3 : inferInputPreference w = some ("mixed", 3/5) :=
        (mem_infer_iff _ _ _).mp hmem
      unfold inferInputPreference at hr3
      rw [h] at hr3
      rcases hvr : w.video_to_text_ratio with _ | q
      · rw [hvr] at hr3
        exact Option.noConfusion hr3
      · rw [hvr] at hr3
        have h4 := evalChain_none_right _ _ _ _ _ hr3
        simp at h4

theorem null_field_rule_does_not_fire_witness :
    Dim.input_preference ∉ (infer allNullWindow).map Prod.fst ∧
    Dim.engagement_style ∉ (infer allNullWindow).map Prod.fst ∧
    Dim.complexity_tolerance ∉ (infer allNullWindow).map Prod.fst ∧
    Dim.learning_autonomy ∉ (infer allNullWindow).map Prod.fst ∧
    (Dim.input_preference, (("verbal" : String), (9/10 : ℚ))) ∉ infer allNullWindow := by
  have h := null_field_rule_does_not_fire allNullWindow
  exact ⟨h.1 rfl, h.2.1 rfl, h.2.2.1 rfl, h.2.2.2.1 rfl, (h.2.2.2.2 rfl).1⟩

/-- C8: the four dimensions with no defined rules never appear in the rule
engine's output, and a merge of any inference output leaves their value
and confidence fields unchanged. -/
theorem undefined_dimensions_never_updated (w : BehavioralWindow) (p : LearnerProfile) :
    Dim.instruction_flow ∉ (infer w).map Prod.fst ∧
    Dim.concept_type ∉ (infer w).map Prod.fst ∧
    Dim.motivation_type ∉ (infer w).map Prod.fst ∧
    Dim.feedback_preference ∉ (infer w).map Prod.fst ∧
    ((merge p (infer w) (3/20) (7/10)).values Dim.instruction_flow = p.values Dim.instruction_flow ∧
     (merge p (infer w) (3/20) (7/10)).confs Dim.instruction_flow = p.confs Dim.instruction_flow) ∧
    ((merge p (infer w) (3/20) (7/10)).values Dim.concept_type = p.values Dim.concept_type ∧
     (merge p (infer w) (3/20) (7/10)).confs Dim.concept_type = p.confs Dim.concept_type) ∧
    ((merge p (infer w) (3/20) (7/10)).values Dim.motivation_type = p.values Dim.motivation_type ∧
     (merge p (infer w) (3/20) (7/10)).confs Dim.motivation_type = p.confs Dim.motivation_type) ∧
    ((merge p (infer w) (3/20) (7/10)).values Dim.feedback_preference = p.values Dim.feedback_preference ∧
     (merge p (infer w) (3/20) (7/10)).confs Dim.feedback_preference = p.confs Dim.feedback_preference) := by
  have notin : ∀ d : Dim, dimResult w d = none → d ∉ (infer w).map Prod.fst := by
    intro d hd hmem
    obtain ⟨r, hr⟩ := (mem_infer_fst_iff _ _).mp hmem
    rw [hd] at hr
    exact Option.noConfusion hr
  refine ⟨notin _ rfl, notin _ rfl, notin _ rfl, notin _ rfl, ?_, ?_, ?_, ?_⟩ <;>
    exact merge_untouched_of_find_none p (infer w) (3/20) (7/10) _
      (find_none_of_dimResult_none w _ rfl)

/-- C9: the claim fails on the `Register` component: the profile inputs it
renders are editable, so a submission after a profile-field edit does not
send the constant `initialProfile`. -/
theorem submitted_profile_not_always_initial :
    ¬ submittedProfile [(Dim.instruction_flow, "linear")] = initialProfile := by
  intro h
  have h2 := congrFun h Dim.instruction_flow
  simp [submittedProfile, handleProfileChange, initialProfile] at h2

/-- C9 (amended): the `Register` form's profile state starts as the
constant `initialProfile` and is what an edit-free submission sends; three
of its values — `instruction_flow = sequential`,
`engagement_style = reflective`, `concept_type = intuitive` — are not
members of the corresponding enum domains of the database schema, while
the other five are, so an unedited registration violates the
value-in-domain invariant. -/
theorem initial_profile_domain_violations :
    submittedProfile [] = initialProfile ∧
    initialProfile Dim.instruction_flow = "sequential" ∧
    "sequential" ∉ instruction_flow_type ∧
    initialProfile Dim.engagement_style = "reflective" ∧
    "reflective" ∉ engagement_style_type ∧
    initialProfile Dim.concept_type = "intuitive" ∧
    "intuitive" ∉ concept_type_preference ∧
    initialProfile Dim.input_preference ∈ input_preference_type ∧
    initialProfile Dim.learning_autonomy ∈ learning_autonomy_type ∧
    initialProfile Dim.motivation_type ∈ motivation_type ∧
    initialProfile Dim.feedback_preference ∈ feedback_preference_type ∧
    initialProfile Dim.complexity_tolerance ∈ complexity_tolerance_type := by
  refine ⟨rfl, rfl, by decide, rfl, by decide, rfl, by decide,
    by decide, by decide, by decide, by decide, by decide⟩

/-- C10: every session-end report carries `frustration_indicators = 0`, a
completion rate in {0.5, 0.8} and a focus score in {0.5, 0.7, 0.85}, all
within the unit interval, and the frustration count aggregated from any
list of such reports is 0, so the frustration-based rule conditions
`frustration_events > 5` and `frustration_events > 3` can never hold. -/
theorem session_end_report_bounds (n : ℕ) (dur : ℚ) (args : List (ℕ × ℚ)) :
    (endSessionPayload n dur).frustration_indicators = 0 ∧
    ((endSessionPayload n dur).completion_rate = 1/2 ∨
     (endSessionPayload n dur).completion_rate = 8/10) ∧
    ((endSessionPayload n dur).focus_score = 1/2 ∨
     (endSessionPayload n dur).focus_score = 7/10 ∨
     (endSessionPayload n dur).focus_score = 85/100) ∧
    0 ≤ (endSessionPayload n dur).completion_rate ∧
    (endSessionPayload n dur).completion_rate ≤ 1 ∧
    0 ≤ (endSessionPayload n dur).focus_score ∧
    (endSessionPayload n dur).focus_score ≤ 1 ∧
    windowFrustration (args.map (fun a => endSessionPayload a.1 a.2)) = 0 ∧
    gtN (some (windowFrustration (args.map (fun a => endSessionPayload a.1 a.2)))) 5 =
      some false ∧
    gtN (some (windowFrustration (args.map (fun a => endSessionPayload a.1 a.2)))) 3 =
      some false := by
  have hsum : windowFrustration (args.map (fun a => endSessionPayload a.1 a.2)) = 0 := by
    unfold windowFrustration
    rw [List.map_map]
    apply List.sum_eq_zero
    intro x hx
    rcases List.mem_map.mp hx with ⟨a, _, rfl⟩
    rfl
  refine ⟨rfl, ?_, ?_, ?_, ?_, ?_, ?_, hsum, ?_, ?_⟩
  · show calculateCompletionRate n = 1/2 ∨ calculateCompletionRate n = 8/10
    unfold calculateCompletionRate
    split_ifs
    · exact Or.inr rfl
    · exact Or.inl rfl
  · show calculateFocusScore dur = 1/2 ∨ calculateFocusScore dur = 7/10 ∨
      calculateFocusScore dur = 85/100
    unfold calculateFocusScore
    split_ifs
    · exact Or.inl rfl
    · exact Or.inr (Or.inl rfl)
    · exact Or.inr (Or.inr rfl)
  · show (0 : ℚ) ≤ calculateCompletionRate n
    unfold calculateCompletionRate
    split_ifs <;> norm_num
  · show calculateCompletionRate n ≤ 1
    unfold calculateCompletionRate
    split_ifs <;> norm_num
  · show (0 : ℚ) ≤ calculateFocusScore dur
    unfold calculateFocusScore
    split_ifs <;> norm_num
  · show calculateFocusScore dur ≤ 1
    unfold calculateFocusScore
    split_ifs <;> norm_num
  · rw [hsum]
    rfl
  · rw [hsum]
    rfl
